import Mathlib

/-!
Shallow embedding of the device-instrumentation pipeline in
`auto_ssl_bypass.py` (project Atropos).

The script drives three external boundaries, each modelled as data:
  * the debug-bridge (adb) subprocess boundary: every `subprocess.run` /
    `subprocess.check_output` result is a `CmdResult` supplied by an
    environment `Env`;
  * the HTTP download boundary (`requests.get` + `raise_for_status`):
    success is the flag `Env.httpOk`;
  * the frida runtime boundary (`frida.get_usb_device`, `spawn`, `attach`,
    `resume`, `create_script`, `script.on`, `script.load`): which call (if
    any) raises, and with which exception class, is a `SessionEnv`.

The local filesystem is a set of file names (`List String`); colored
console printing and the ASCII banner are decorative and not modelled.
Each embedded function returns the sequence of boundary calls it issues
(a `Trace`) together with its result; `sys.exit(1)` paths are
`Except.error` carrying the diagnostic category that was printed.
-/

/-- Observable boundary calls issued by the script, in program order. -/
inductive Event where
  /-- subprocess.run(adb version) in check_adb_availability (line 47). -/
  | adbVersion : Event
  /-- subprocess.run(adb get-state) in check_device_connection (line 62). -/
  | adbGetState : Event
  /-- adb shell getprop of the named property (lines 16, 74, 242). -/
  | adbGetProp : String → Event
  /-- adb shell ls of the given on-device path (line 110). -/
  | adbLs : String → Event
  /-- adb push local file to on-device path (line 155). -/
  | adbPush : String → String → Event
  /-- adb shell with a privileged su -c command string (lines 139, 168, 175). -/
  | adbShellSu : String → Event
  /-- time.sleep for the given number of seconds (line 143). -/
  | sleep : Nat → Event
  /-- subprocess.Popen(scrcpy) in launch_scrcpy (line 84). -/
  | popenScrcpy : Event
  /-- requests.get of the given URL (line 205). -/
  | httpGet : String → Event
  /-- write of a local file with the given name (lines 216, 221). -/
  | fileWrite : String → Event
  /-- os.remove of the given local file (lines 225, 227, 291). -/
  | fileRemove : String → Event
  /-- frida.get_usb_device(timeout=5) (line 301). -/
  | fridaGetUsbDevice : Event
  /-- device.spawn of the given application identifier (line 307). -/
  | fridaSpawn : String → Event
  /-- device.attach(pid) (line 308). -/
  | fridaAttach : Event
  /-- device.resume(pid) (line 309). -/
  | fridaResume : Event
  /-- session.create_script(js_code) (line 312). -/
  | fridaCreateScript : Event
  /-- script.on message-handler registration (line 315). -/
  | fridaScriptOn : Event
  /-- script.load() (line 321). -/
  | fridaScriptLoad : Event
  /-- sys.stdin.read() blocking wait (line 330). -/
  | stdinRead : Event
deriving DecidableEq, Repr

abbrev Trace := List Event

/-- Result of one adb subprocess invocation (CompletedProcess fields). -/
structure CmdResult where
  returncode : Int
  stdout : String
  stderr : String
deriving DecidableEq, Repr

/-- Diagnostic category printed just before each sys.exit(1) call. -/
inductive PipeError where
  /-- adb binary missing: FileNotFoundError branch, line 57. -/
  | adbMissing : PipeError
  /-- adb get-state output lacks the word device, line 71. -/
  | noDevice : PipeError
  /-- download/decompression failure branch, line 236. -/
  | downloadError : PipeError
  /-- payload file missing, lines 253 and 269. -/
  | payloadMissing : PipeError
  /-- frida.TransportError branch, lines 331-339. -/
  | serverNotReachable : PipeError
  /-- generic except Exception branch, lines 340-342. -/
  | genericError : PipeError
deriving DecidableEq, Repr

/-- Every sys.exit in the script passes the literal status 1. -/
def exitCode : PipeError → Nat
  | .adbMissing => 1
  | .noDevice => 1
  | .downloadError => 1
  | .payloadMissing => 1
  | .serverNotReachable => 1
  | .genericError => 1

/-- Environment: the replies of the adb and HTTP boundaries for one run.
adbAvailable is false when the adb binary is absent (subprocess raises
FileNotFoundError); prop gives the getprop reply for each property name;
lsFridaServer is the reply of adb shell ls /data/local/tmp/frida-server;
kill/push/chmod/launch are the replies of the four commands issued by
start_frida; httpOk is whether requests.get succeeded with a 2xx status
(raise_for_status does not raise). -/
structure Env where
  adbAvailable : Bool
  getState : CmdResult
  prop : String → CmdResult
  lsFridaServer : CmdResult
  killResult : CmdResult
  pushResult : CmdResult
  chmodResult : CmdResult
  launchResult : CmdResult
  httpOk : Bool

/-- Whether the first character list is an initial segment of the second. -/
def charsStart : List Char → List Char → Bool
  | [], _ => true
  | _ :: _, [] => false
  | a :: as, b :: bs => a == b && charsStart as bs

/-- Whether the first character list occurs contiguously in the second. -/
def charsContain : List Char → List Char → Bool
  | pat, [] => charsStart pat []
  | pat, b :: bs => charsStart pat (b :: bs) || charsContain pat bs

/-- Python substring test pat in s (the empty pattern is always found). -/
def pyIn (pat s : String) : Bool :=
  charsContain pat.data s.data

/-- The fixed abi-to-frida-tag table of get_device_arch (lines 23-28),
applied with dict.get(arch, arch): unmapped inputs pass through. -/
def arch_map (arch : String) : String :=
  if arch = "arm64-v8a" then "android-arm64"
  else if arch = "armeabi-v7a" then "android-arm"
  else if arch = "x86" then "android-x86"
  else if arch = "x86_64" then "android-x86_64"
  else arch

/-- check_adb_availability (lines 44-57): runs adb version; on
FileNotFoundError prints and exits 1, otherwise returns True.  The run
call itself is attempted either way, so the event is always emitted. -/
def check_adb_availability (env : Env) : Trace × Except PipeError Bool :=
  if env.adbAvailable then ([Event.adbVersion], .ok true)
  else ([Event.adbVersion], .error .adbMissing)

/-- Embeds _get_prop (lines 239-245): check_output raises
CalledProcessError exactly on a nonzero exit status, in which case the
sentinel Unknown is returned; on success the decoded stdout is stripped. -/
def get_prop (env : Env) (name : String) : Trace × String :=
  ([Event.adbGetProp name],
   if (env.prop name).returncode = 0 then (env.prop name).stdout.trim
   else "Unknown")

/-- check_device_connection (lines 60-78): runs adb get-state; if the
substring device is absent from stdout, prints and exits 1; otherwise
prints a banner that queries three properties via _get_prop. -/
def check_device_connection (env : Env) : Trace × Except PipeError Unit :=
  if pyIn ("device") env.getState.stdout then
    ([Event.adbGetState]
      ++ (get_prop env ("ro.product.manufacturer")).1
      ++ (get_prop env ("ro.product.device")).1
      ++ (get_prop env ("ro.build.version.release")).1, .ok ())
  else ([Event.adbGetState], .error .noDevice)

/-- launch_scrcpy (lines 81-103): starts scrcpy detached; every failure
is caught and only printed, so the function always returns normally. -/
def launch_scrcpy : Trace := [Event.popenScrcpy]

/-- get_device_arch (lines 12-41): reads ro.product.cpu.abi, strips it
and applies the arch_map table.  The except CalledProcessError branch is
unreachable: subprocess.run is called without check=True and therefore
never raises CalledProcessError. -/
def get_device_arch (env : Env) : Trace × String :=
  ([Event.adbGetProp ("ro.product.cpu.abi")],
   arch_map (env.prop ("ro.product.cpu.abi")).stdout.trim)

/-- check_existing_frida_server (lines 106-124): runs
adb shell ls /data/local/tmp/frida-server and reports whether its exit
status is zero. -/
def check_existing_frida_server (env : Env) : Trace × Bool :=
  ([Event.adbLs ("/data/local/tmp/frida-server")],
   env.lsFridaServer.returncode == 0)

/-- start_frida (lines 127-189): kill any existing server, sleep 1s,
push the binary when a filename is given, chmod it, launch it.  All four
subprocess.run calls are made without check=True, so none of them raises
CalledProcessError whatever their exit status or output; the push result
is read only to print its stderr when it mentions pushed.  Hence the
except CalledProcessError / sys.exit(1) branch (lines 187-189) is
unreachable and the function always returns normally. -/
def start_frida (env : Env) (filename : Option String) : Trace × Except PipeError Unit :=
  ([Event.adbShellSu ("su -c \x22pkill -9 frida-server\x22"), Event.sleep 1]
    ++ (match filename with
        | some f => [Event.adbPush f ("/data/local/tmp/frida-server")]
        | none => [])
    ++ [Event.adbShellSu ("su -c \x22chmod 755 /data/local/tmp/frida-server\x22"),
        Event.adbShellSu ("su -c \x22/data/local/tmp/frida-server -D\x22")],
   .ok ())

/-- Local filesystem operation: open(name, wb) creates name if absent. -/
def fsAdd (name : String) (fs : List String) : List String :=
  if name ∈ fs then fs else name :: fs

/-- Local filesystem operation: os.remove name. -/
def fsRemove (name : String) (fs : List String) : List String :=
  fs.filter (fun m => m ≠ name)

/-- download_frida_server (lines 192-236): one requests.get of the
constructed URL; on success write the compressed file filename.xz, write
the decompressed file frida-server, os.remove the compressed file, then
os.remove filename too when a stale file of that (extension-free) name
exists; returns the literal frida-server.  raise_for_status on a non-2xx
reply (and any other exception) lands in the except branch which prints
and exits 1. -/
def download_frida_server (env : Env) (fs : List String) (frida_version arch : String) :
    Trace × List String × Except PipeError String :=
  let filename := "frida-server-" ++ frida_version ++ "-" ++ arch
  let url := "https://github.com/frida/frida/releases/download/" ++ frida_version
      ++ "/" ++ filename ++ ".xz"
  if env.httpOk then
    let fs3 := fsRemove (filename ++ ".xz") (fsAdd ("frida-server") (fsAdd (filename ++ ".xz") fs))
    let tr1 := [Event.httpGet url, Event.fileWrite (filename ++ ".xz"),
                Event.fileWrite ("frida-server"), Event.fileRemove (filename ++ ".xz")]
    if filename ∈ fs3 then
      (tr1 ++ [Event.fileRemove filename], fsRemove filename fs3, .ok ("frida-server"))
    else
      (tr1, fs3, .ok ("frida-server"))
  else
    ([Event.httpGet url], fs, .error .downloadError)

/-- start_frida_server (lines 275-291): the provisioning pipeline.
Checks adb, checks the device, launches scrcpy, resolves the
architecture, then either restarts an existing on-device server
(start_frida with no filename) or downloads version 16.5.9, deploys it
(start_frida with the downloaded filename) and os.removes the local
download when it exists. -/
def start_frida_server (env : Env) (fs : List String) :
    Trace × List String × Except PipeError Unit :=
  match check_adb_availability env with
  | (t1, .error e) => (t1, fs, .error e)
  | (t1, .ok _) =>
    match check_device_connection env with
    | (t2, .error e) => (t1 ++ t2, fs, .error e)
    | (t2, .ok _) =>
      let t3 := t1 ++ t2 ++ launch_scrcpy ++ (get_device_arch env).1
        ++ (check_existing_frida_server env).1
      if (check_existing_frida_server env).2 then
        (t3 ++ (start_frida env none).1, fs, .ok ())
      else
        match download_frida_server env fs ("16.5.9") (get_device_arch env).2 with
        | (t8, fs2, .error e) => (t3 ++ t8, fs2, .error e)
        | (t8, fs2, .ok filename) =>
          let t9 := t3 ++ t8 ++ (start_frida env (some filename)).1
          if filename ∈ fs2 then
            (t9 ++ [Event.fileRemove filename], fsRemove filename fs2, .ok ())
          else
            (t9, fs2, .ok ())

/-- The frida-boundary calls of hook_proxygen_SSLVerification, in the
order the try block issues them (lines 301-330). -/
inductive FridaStep where
  | getUsbDevice : FridaStep
  | spawn : FridaStep
  | attach : FridaStep
  | resume : FridaStep
  | createScript : FridaStep
  | scriptOn : FridaStep
  | scriptLoad : FridaStep
  | stdinRead : FridaStep
deriving DecidableEq, Repr

/-- The boundary event each frida step produces. -/
def FridaStep.event : FridaStep → Event
  | .getUsbDevice => .fridaGetUsbDevice
  | .spawn => .fridaSpawn ("com.facebook.katana")
  | .attach => .fridaAttach
  | .resume => .fridaResume
  | .createScript => .fridaCreateScript
  | .scriptOn => .fridaScriptOn
  | .scriptLoad => .fridaScriptLoad
  | .stdinRead => .stdinRead

/-- Statement order of the try block of hook_proxygen_SSLVerification:
get_usb_device (301), spawn (307), attach (308), resume (309),
create_script (312), script.on (315), script.load (321),
sys.stdin.read (330). -/
def sessionOrder : List FridaStep :=
  [.getUsbDevice, .spawn, .attach, .resume, .createScript, .scriptOn,
   .scriptLoad, .stdinRead]

/-- Exception classes distinguished by the two except clauses of
hook_proxygen_SSLVerification: frida.TransportError (the transport-level
connection failure raised on a timeout or refused connection to the
instrumentation server) versus every other exception. -/
inductive FridaExcKind where
  | transportError : FridaExcKind
  | otherError : FridaExcKind
deriving DecidableEq, Repr

/-- Behaviour of the frida runtime boundary in one run: the first step of
the try block that raises (none when the whole block completes), and the
class of the exception it raises. -/
structure SessionEnv where
  failAt : Option FridaStep
  excKind : FridaExcKind

/-- The hard-coded payload path of hook_proxygen_SSLVerification (line 296). -/
def script_path : String := "./MAIN_SSLPINING.js"

/-- Embeds _validate_js_file (lines 248-259): os.path.exists check. -/
def validate_js_file (fs : List String) (p : String) : Bool := p ∈ fs

/-- Embeds _load_js_code (lines 262-272): when the payload file exists its
text is returned (modelled abstractly by the path, since the content is an
opaque asset), otherwise the function prints and exits 1.  A read failure
of an existing file would also exit 1; file contents are not modelled so a
present file is read successfully. -/
def load_js_code (fs : List String) (p : String) : Except PipeError String :=
  if validate_js_file fs p then .ok p else .error .payloadMissing

/-- hook_proxygen_SSLVerification (lines 294-342): load the payload
(exiting before any frida call when it is missing), then issue the frida
calls in sessionOrder until the first failing step; a TransportError is
reported as server-not-reachable, any other exception generically, and
both exit 1. -/
def hook_proxygen_SSLVerification (fs : List String) (senv : SessionEnv) :
    Trace × Except PipeError Unit :=
  match load_js_code fs script_path with
  | .error e => ([], .error e)
  | .ok _ =>
    match senv.failAt with
    | none => (sessionOrder.map FridaStep.event, .ok ())
    | some s =>
      ((sessionOrder.takeWhile (fun x => x != s)).map FridaStep.event
          ++ [s.event],
       .error (match senv.excKind with
               | .transportError => .serverNotReachable
               | .otherError => .genericError))

/-- The __main__ block (lines 354-357): banner, then start_frida_server,
then hook_proxygen_SSLVerification; sys.exit inside a stage terminates the
whole process, so the session stage runs only when provisioning
succeeded. -/
def main_run (env : Env) (fs : List String) (senv : SessionEnv) :
    Trace × Except PipeError Unit :=
  match start_frida_server env fs with
  | (t, _, .error e) => (t, .error e)
  | (t, fs2, .ok _) =>
    match hook_proxygen_SSLVerification fs2 senv with
    | (t2, r2) => (t ++ t2, r2)

/-- Event classifiers used to state frame conditions on traces. -/
def Event.isHttpGet : Event → Bool
  | .httpGet _ => true
  | _ => false

/-- True exactly on local-file write events. -/
def Event.isFileWrite : Event → Bool
  | .fileWrite _ => true
  | _ => false

/-- True exactly on adb push events. -/
def Event.isPush : Event → Bool
  | .adbPush _ _ => true
  | _ => false

/-- True exactly on the device-side session calls: connect, spawn, attach. -/
def Event.isSessionCall : Event → Bool
  | .fridaGetUsbDevice => true
  | .fridaSpawn _ => true
  | .fridaAttach => true
  | _ => false

/-- Membership in the filesystem after creating a file. -/
lemma mem_fsAdd {m n : String} {fs : List String} :
    m ∈ fsAdd n fs ↔ m = n ∨ m ∈ fs := by
  simp only [fsAdd]
  split
  · constructor
    · exact fun h => Or.inr h
    · rintro (rfl | h) <;> assumption
  · simp [List.mem_cons]

/-- Membership in the filesystem after removing a file. -/
lemma mem_fsRemove {m n : String} {fs : List String} :
    m ∈ fsRemove n fs ↔ m ∈ fs ∧ m ≠ n := by
  simp [fsRemove]

/-- Strings of different lengths are different. -/
lemma ne_of_length_ne {s t : String} (h : s.length ≠ t.length) : s ≠ t :=
  fun e => h (congrArg String.length e)

/-- The versioned download name is never the fixed decompressed name. -/
lemma downloadName_ne (v a : String) :
    ("frida-server-" ++ v ++ "-" ++ a : String) ≠ "frida-server" := by
  apply ne_of_length_ne
  simp only [String.length_append, ne_eq]
  have e1 : ("frida-server-" : String).length = 13 := by decide
  have e2 : ("-" : String).length = 1 := by decide
  have e3 : ("frida-server" : String).length = 12 := by decide
  omega

/-- The compressed download name is never the fixed decompressed name. -/
lemma downloadNameXz_ne (v a : String) :
    ("frida-server-" ++ v ++ "-" ++ a ++ ".xz" : String) ≠ "frida-server" := by
  apply ne_of_length_ne
  simp only [String.length_append, ne_eq]
  have e1 : ("frida-server-" : String).length = 13 := by decide
  have e2 : ("-" : String).length = 1 := by decide
  have e3 : (".xz" : String).length = 3 := by decide
  have e4 : ("frida-server" : String).length = 12 := by decide
  omega

/-- Claim C2: the architecture resolver maps each of the four supported raw
ABI strings to its documented frida tag and returns every other string
unchanged; get_device_arch applies exactly this mapping to the stripped
getprop output. -/
theorem C2_arch_map_mapping :
    arch_map ("arm64-v8a") = "android-arm64" ∧
    arch_map ("armeabi-v7a") = "android-arm" ∧
    arch_map ("x86") = "android-x86" ∧
    arch_map ("x86_64") = "android-x86_64" ∧
    (∀ env : Env, (get_device_arch env).2
        = arch_map ((env.prop ("ro.product.cpu.abi")).stdout.trim)) ∧
    ∀ s : String, s ≠ "arm64-v8a" → s ≠ "armeabi-v7a" → s ≠ "x86" →
      s ≠ "x86_64" → arch_map s = s := by
  refine ⟨by decide, by decide, by decide, by decide, fun env => rfl, ?_⟩
  intro s h1 h2 h3 h4
  simp [arch_map, h1, h2, h3, h4]

/-- Witness for C2 at the unmapped input mips. -/
theorem C2_arch_map_mapping_witness :
    ("mips" : String) ≠ "arm64-v8a" ∧ arch_map ("mips") = "mips" :=
  ⟨by decide, C2_arch_map_mapping.2.2.2.2.2 ("mips") (by decide) (by decide)
    (by decide) (by decide)⟩

/-- Claim C3: when the on-device server binary already exists (the ls
probe exits 0), the provisioning run performs no HTTP request, writes no
local file, pushes no file, and leaves the local filesystem unchanged:
start_frida is invoked without a filename. -/
theorem C3_existing_server_no_download_no_write (env : Env) (fs : List String)
    (h1 : env.adbAvailable = true)
    (h2 : pyIn ("device") env.getState.stdout = true)
    (h3 : env.lsFridaServer.returncode = 0) :
    (start_frida_server env fs).2.1 = fs ∧
    (start_frida_server env fs).2.2 = Except.ok () ∧
    (start_frida_server env fs).1.filter Event.isHttpGet = [] ∧
    (start_frida_server env fs).1.filter Event.isFileWrite = [] ∧
    (start_frida_server env fs).1.filter Event.isPush = [] := by
  simp [start_frida_server, check_adb_availability, check_device_connection,
    check_existing_frida_server, get_device_arch, get_prop, launch_scrcpy,
    start_frida, h1, h2, h3, Event.isHttpGet, Event.isFileWrite, Event.isPush]

/-- Sample boundary replies: device present, server already on device. -/
def envExisting : Env :=
  ⟨true, ⟨0, "device", ""⟩, fun _ => ⟨0, "arm64-v8a", ""⟩, ⟨0, "", ""⟩,
   ⟨0, "", ""⟩, ⟨0, "", ""⟩, ⟨0, "", ""⟩, ⟨0, "", ""⟩, true⟩

/-- Witness for C3 on a concrete environment with an on-device server. -/
theorem C3_existing_server_no_download_no_write_witness :
    envExisting.adbAvailable = true ∧
    pyIn ("device") envExisting.getState.stdout = true ∧
    envExisting.lsFridaServer.returncode = 0 ∧
    (start_frida_server envExisting ["a.js"]).2.1 = ["a.js"] :=
  ⟨rfl, by decide, by decide,
   (C3_existing_server_no_download_no_write envExisting ["a.js"] rfl (by decide)
     (by decide)).1⟩

/-- Claim C5: when the payload file is absent, the session controller
exits with the payload diagnostic and status 1 having issued no boundary
call at all: in particular no connect, spawn or attach happened. -/
theorem C5_missing_payload_fails_before_session (fs : List String)
    (senv : SessionEnv) (h : script_path ∉ fs) :
    hook_proxygen_SSLVerification fs senv
      = ([], Except.error PipeError.payloadMissing) ∧
    (hook_proxygen_SSLVerification fs senv).1.filter Event.isSessionCall = [] ∧
    exitCode PipeError.payloadMissing ≠ 0 := by
  refine ⟨?_, ?_, by decide⟩ <;>
    simp [hook_proxygen_SSLVerification, load_js_code, validate_js_file, h]

/-- Witness for C5 on the empty local filesystem. -/
theorem C5_missing_payload_fails_before_session_witness :
    script_path ∉ ([] : List String) ∧
    hook_proxygen_SSLVerification [] ⟨none, FridaExcKind.otherError⟩
      = ([], Except.error PipeError.payloadMissing) :=
  ⟨by decide,
   (C5_missing_payload_fails_before_session [] ⟨none, FridaExcKind.otherError⟩
     (by decide)).1⟩

/-- Claim C6: when some frida call of the session raises, a
frida.TransportError (timeout or refused connection to the
instrumentation server) is reported with the dedicated
server-not-reachable diagnostic, every other exception with the generic
diagnostic; the two categories are distinct and both exit with status 1. -/
theorem C6_transport_error_distinct_category (fs : List String)
    (senv : SessionEnv) (s : FridaStep)
    (hp : script_path ∈ fs) (hf : senv.failAt = some s) :
    (senv.excKind = FridaExcKind.transportError →
      (hook_proxygen_SSLVerification fs senv).2
        = Except.error PipeError.serverNotReachable) ∧
    (senv.excKind = FridaExcKind.otherError →
      (hook_proxygen_SSLVerification fs senv).2
        = Except.error PipeError.genericError) ∧
    PipeError.serverNotReachable ≠ PipeError.genericError ∧
    exitCode PipeError.serverNotReachable = 1 ∧
    exitCode PipeError.genericError = 1 := by
  refine ⟨?_, ?_, by decide, by decide, by decide⟩ <;> intro hk <;>
    simp [hook_proxygen_SSLVerification, load_js_code, validate_js_file,
      hp, hf, hk]

/-- Witness for C6: a transport error at the connect step on a present
payload yields the server-not-reachable category. -/
theorem C6_transport_error_distinct_category_witness :
    script_path ∈ [script_path] ∧
    (hook_proxygen_SSLVerification [script_path]
        ⟨some FridaStep.getUsbDevice, FridaExcKind.transportError⟩).2
      = Except.error PipeError.serverNotReachable :=
  ⟨by decide,
   (C6_transport_error_distinct_category [script_path]
     ⟨some FridaStep.getUsbDevice, FridaExcKind.transportError⟩
     FridaStep.getUsbDevice (by decide) rfl).1 rfl⟩

/-- Claim C7: when the adb get-state output lacks the word device, the
whole pipeline (provisioning followed by the session stage) stops right
after the adb version and get-state probes with exit status 1: no
download, no push, no file write and no spawn or attach ever happen in
that run. -/
theorem C7_no_device_aborts_pipeline (env : Env) (fs : List String)
    (senv : SessionEnv) (h1 : env.adbAvailable = true)
    (h2 : pyIn ("device") env.getState.stdout = false) :
    main_run env fs senv
      = ([Event.adbVersion, Event.adbGetState], Except.error PipeError.noDevice) ∧
    exitCode PipeError.noDevice = 1 := by
  refine ⟨?_, by decide⟩
  simp [main_run, start_frida_server, check_adb_availability,
    check_device_connection, h1, h2]

/-- Sample boundary replies: adb reports an offline device state. -/
def envOffline : Env :=
  ⟨true, ⟨0, "offline", ""⟩, fun _ => ⟨0, "", ""⟩, ⟨0, "", ""⟩,
   ⟨0, "", ""⟩, ⟨0, "", ""⟩, ⟨0, "", ""⟩, ⟨0, "", ""⟩, true⟩

/-- Witness for C7 on a concrete offline environment. -/
theorem C7_no_device_aborts_pipeline_witness :
    envOffline.adbAvailable = true ∧
    pyIn ("device") envOffline.getState.stdout = false ∧
    main_run envOffline [] ⟨none, FridaExcKind.otherError⟩
      = ([Event.adbVersion, Event.adbGetState], Except.error PipeError.noDevice) :=
  ⟨rfl, by decide,
   (C7_no_device_aborts_pipeline envOffline [] ⟨none, FridaExcKind.otherError⟩
     rfl (by decide)).1⟩

/-- Claim C8: start_frida never checks the results of the on-device kill,
chmod and launch commands (nor of the push): its trace and successful
result are identical for any two environments, i.e. for every possible
exit status and output of those commands, and it never exits. -/
theorem C8_start_frida_ignores_shell_results (env env2 : Env)
    (filename : Option String) :
    start_frida env filename = start_frida env2 filename ∧
    (start_frida env filename).2 = Except.ok () :=
  ⟨rfl, rfl⟩

/-- Claim C9: the property query fails soft: a nonzero adb exit status
yields the sentinel Unknown, a zero exit status yields the stripped
standard output. -/
theorem C9_get_prop_fails_soft (env : Env) (name : String) :
    ((env.prop name).returncode ≠ 0 → (get_prop env name).2 = "Unknown") ∧
    ((env.prop name).returncode = 0 →
      (get_prop env name).2 = (env.prop name).stdout.trim) := by
  constructor <;> intro h <;> simp [get_prop, h]

/-- Sample boundary replies: every getprop exits with status 1. -/
def envPropFail : Env :=
  ⟨true, ⟨0, "device", ""⟩, fun _ => ⟨1, "value", ""⟩, ⟨0, "", ""⟩,
   ⟨0, "", ""⟩, ⟨0, "", ""⟩, ⟨0, "", ""⟩, ⟨0, "", ""⟩, true⟩

/-- Witness for C9: a failing getprop returns the sentinel. -/
theorem C9_get_prop_fails_soft_witness :
    (envPropFail.prop ("ro.product.model")).returncode ≠ 0 ∧
    (get_prop envPropFail ("ro.product.model")).2 = "Unknown" :=
  ⟨by decide, (C9_get_prop_fails_soft envPropFail ("ro.product.model")).1
    (by decide)⟩

/-- Effects of a successful download: the result names frida-server, the
compressed file is gone from the final filesystem, the decompressed file
is present, no file outside the input filesystem other than frida-server
remains, exactly one HTTP GET and exactly two local writes are issued,
and the compressed intermediate is removed. -/
lemma download_ok_spec (env : Env) (fs : List String) (v a : String)
    (h : env.httpOk = true) :
    (download_frida_server env fs v a).2.2 = Except.ok ("frida-server") ∧
    ("frida-server-" ++ v ++ "-" ++ a ++ ".xz") ∉ (download_frida_server env fs v a).2.1 ∧
    ("frida-server") ∈ (download_frida_server env fs v a).2.1 ∧
    (∀ g, g ∈ (download_frida_server env fs v a).2.1 → g = "frida-server" ∨ g ∈ fs) ∧
    (download_frida_server env fs v a).1.filter Event.isHttpGet
      = [Event.httpGet ("https://github.com/frida/frida/releases/download/" ++ v
          ++ "/" ++ ("frida-server-" ++ v ++ "-" ++ a) ++ ".xz")] ∧
    (download_frida_server env fs v a).1.filter Event.isFileWrite
      = [Event.fileWrite ("frida-server-" ++ v ++ "-" ++ a ++ ".xz"),
         Event.fileWrite ("frida-server")] ∧
    Event.fileRemove ("frida-server-" ++ v ++ "-" ++ a ++ ".xz")
      ∈ (download_frida_server env fs v a).1 := by
  have hne1 := downloadName_ne v a
  have hne2 := downloadNameXz_ne v a
  simp only [download_frida_server, h, if_true]
  split
  · refine ⟨rfl, ?_, ?_, ?_, ?_, ?_, ?_⟩ <;>
      simp [mem_fsRemove, mem_fsAdd, hne1, hne2, Ne.symm hne1, Ne.symm hne2,
        Event.isHttpGet, Event.isFileWrite, List.filter]
    intro g hg
    tauto
  · refine ⟨rfl, ?_, ?_, ?_, ?_, ?_, ?_⟩ <;>
      simp [mem_fsRemove, mem_fsAdd, hne1, hne2, Ne.symm hne1, Ne.symm hne2,
        Event.isHttpGet, Event.isFileWrite, List.filter]
    intro g hg
    tauto

/-- Claim C1 is refuted by the code: in a run that reaches device.resume
(payload present, no frida exception), the emitted call order is connect,
spawn, attach, resume, create_script, message-handler registration,
script.load — the script is created and loaded only AFTER the target
process has been resumed, so no scriptLoad call precedes the resume call,
contrary to the claimed fixed order.  The first conjunct evaluates the
embedded session to its full trace; the second shows that the prefix of
the trace before the resume call contains no script.load; the last two
show that both calls do occur in the run. -/
theorem C1_code_resumes_before_script_load :
    (hook_proxygen_SSLVerification [script_path]
        ⟨none, FridaExcKind.otherError⟩).1 =
      [Event.fridaGetUsbDevice, Event.fridaSpawn ("com.facebook.katana"),
       Event.fridaAttach, Event.fridaResume, Event.fridaCreateScript,
       Event.fridaScriptOn, Event.fridaScriptLoad, Event.stdinRead] ∧
    ((hook_proxygen_SSLVerification [script_path]
        ⟨none, FridaExcKind.otherError⟩).1.takeWhile
          (fun e => e != Event.fridaResume)).contains Event.fridaScriptLoad
      = false ∧
    (hook_proxygen_SSLVerification [script_path]
        ⟨none, FridaExcKind.otherError⟩).1.contains Event.fridaResume = true ∧
    (hook_proxygen_SSLVerification [script_path]
        ⟨none, FridaExcKind.otherError⟩).1.contains Event.fridaScriptLoad
      = true := by
  refine ⟨by decide, by decide, by decide, by decide⟩

/-- Claim C4: a successful download issues exactly one HTTP GET of the
constructed URL, writes exactly the compressed file and the decompressed
frida-server file, removes the compressed intermediate, and leaves a
final local filesystem containing frida-server but not the compressed
.xz file. -/
theorem C4_download_success_effects (env : Env) (fs : List String)
    (v a : String) (h : env.httpOk = true) :
    (download_frida_server env fs v a).2.2 = Except.ok ("frida-server") ∧
    (download_frida_server env fs v a).1.filter Event.isHttpGet
      = [Event.httpGet ("https://github.com/frida/frida/releases/download/"
          ++ v ++ "/" ++ ("frida-server-" ++ v ++ "-" ++ a) ++ ".xz")] ∧
    (download_frida_server env fs v a).1.filter Event.isFileWrite
      = [Event.fileWrite ("frida-server-" ++ v ++ "-" ++ a ++ ".xz"),
         Event.fileWrite ("frida-server")] ∧
    Event.fileRemove ("frida-server-" ++ v ++ "-" ++ a ++ ".xz")
      ∈ (download_frida_server env fs v a).1 ∧
    ("frida-server-" ++ v ++ "-" ++ a ++ ".xz")
      ∉ (download_frida_server env fs v a).2.1 ∧
    ("frida-server") ∈ (download_frida_server env fs v a).2.1 := by
  obtain ⟨hr, hxz, hfsmem, hsub, hget, hwrite, hrm⟩ :=
    download_ok_spec env fs v a h
  exact ⟨hr, hget, hwrite, hrm, hxz, hfsmem⟩

/-- Sample boundary replies: device present, no on-device server,
download succeeds. -/
def envDownload : Env :=
  ⟨true, ⟨0, "device", ""⟩, fun _ => ⟨0, "arm64-v8a", ""⟩, ⟨1, "", ""⟩,
   ⟨0, "", ""⟩, ⟨0, "", ""⟩, ⟨0, "", ""⟩, ⟨0, "", ""⟩, true⟩

/-- Witness for C4 on a concrete environment and architecture. -/
theorem C4_download_success_effects_witness :
    envDownload.httpOk = true ∧
    (download_frida_server envDownload [] ("16.5.9") ("android-arm64")).2.2
      = Except.ok ("frida-server") ∧
    ("frida-server-" ++ "16.5.9" ++ "-" ++ "android-arm64" ++ ".xz")
      ∉ (download_frida_server envDownload [] ("16.5.9") ("android-arm64")).2.1 :=
  ⟨rfl,
   (C4_download_success_effects envDownload [] ("16.5.9") ("android-arm64")
     rfl).1,
   (C4_download_success_effects envDownload [] ("16.5.9") ("android-arm64")
     rfl).2.2.2.2.1⟩

/-- Claim C10: on the download path (no on-device server, download
succeeds), the provisioning run ends successfully having removed the
decompressed local file after deployment: the final local filesystem
contains neither the decompressed frida-server file nor the compressed
.xz intermediate, and every remaining file already existed before the
run. -/
theorem C10_download_path_leaves_no_local_files (env : Env) (fs : List String)
    (h1 : env.adbAvailable = true)
    (h2 : pyIn ("device") env.getState.stdout = true)
    (h3 : env.lsFridaServer.returncode ≠ 0)
    (h4 : env.httpOk = true) :
    (start_frida_server env fs).2.2 = Except.ok () ∧
    Event.fileRemove ("frida-server") ∈ (start_frida_server env fs).1 ∧
    ("frida-server") ∉ (start_frida_server env fs).2.1 ∧
    ("frida-server-16.5.9-" ++ (get_device_arch env).2 ++ ".xz")
      ∉ (start_frida_server env fs).2.1 ∧
    ∀ g, g ∈ (start_frida_server env fs).2.1 → g ∈ fs := by
  have hA : check_adb_availability env = ([Event.adbVersion], Except.ok true) := by
    simp [check_adb_availability, h1]
  have hB : check_device_connection env
      = ([Event.adbGetState, Event.adbGetProp ("ro.product.manufacturer"),
          Event.adbGetProp ("ro.product.device"),
          Event.adbGetProp ("ro.build.version.release")], Except.ok ()) := by
    simp [check_device_connection, get_prop, h2]
  have hC : (check_existing_frida_server env).2 = false := by
    simp [check_existing_frida_server, h3]
  obtain ⟨hr, hxz, hfsmem, hsub, hget, hwrite, hrm⟩ :=
    download_ok_spec env fs ("16.5.9") (get_device_arch env).2 h4
  have hfold : ("frida-server-" ++ "16.5.9" ++ "-" : String)
      = "frida-server-16.5.9-" := rfl
  rw [hfold] at hxz
  rcases h5 : download_frida_server env fs ("16.5.9") (get_device_arch env).2
    with ⟨t8, fs2, r3⟩
  rw [h5] at hr hxz hfsmem hsub
  simp only at hr hxz hfsmem hsub
  subst hr
  simp only [start_frida_server, hA, hB, hC, Bool.false_eq_true, if_false, h5,
    hfsmem, if_pos]
  refine ⟨by trivial, by simp, by simp [mem_fsRemove], ?_, ?_⟩
  · simp [mem_fsRemove, hxz]
  · intro g hg
    rw [mem_fsRemove] at hg
    rcases hsub g hg.1 with hc | hc
    · exact absurd hc hg.2
    · exact hc

/-- Witness for C10 on a concrete environment without an on-device server. -/
theorem C10_download_path_leaves_no_local_files_witness :
    envDownload.adbAvailable = true ∧
    pyIn ("device") envDownload.getState.stdout = true ∧
    envDownload.lsFridaServer.returncode ≠ 0 ∧
    envDownload.httpOk = true ∧
    ("frida-server") ∉ (start_frida_server envDownload []).2.1 :=
  ⟨rfl, by decide, by decide, rfl,
   (C10_download_path_leaves_no_local_files envDownload [] rfl (by decide)
     (by decide) rfl).2.2.1⟩
